import Mathlib

/-!
Shallow embedding of `src/consumer/bit-config/abstract-bit-config.js`:
the abstract configuration model of the bit component manager, covering
environment normalization (`transformEnvToObject`), the compiler/tester
getters and queries, the environment loader (`loadEnv`, `loadCompiler`,
`loadTester`, `getEnvsProps`), backward-compatible serialization
(`getBackwardCompatibleEnv`), canonicalization (`toPlainObject`), and the
dual-destination writer (`prepareToWrite`, `write`, `removeIfExist`).

JavaScript objects are modelled as association lists with string keys.
Leaf values of plugin-specific configuration objects (`rawConfig`,
`options`, `context`, extra package-manifest fields) are modelled by the
flat `JLit` type: the source never inspects them beyond emptiness checks,
deep equality, and pass-through.
-/

/-- Leaf value of a plugin-specific JS configuration object. -/
inductive JLit where
  | bool : Bool → JLit
  | str : String → JLit
deriving DecidableEq, Repr

/-- A flat JS object (string-keyed association list). -/
abbrev JObj := List (String × JLit)

/-- JS property lookup on an association-list object. -/
def objLookup {α : Type} (o : List (String × α)) (k : String) : Option α :=
  match o with
  | [] => none
  | p :: rest => if p.1 = k then some p.2 else objLookup rest k

/-- Ramda `R.equals` on two flat objects: same key set, equal values
(key order irrelevant). -/
def ramdaEqualsObj (a b : JObj) : Bool :=
  a.all (fun p => objLookup b p.1 == some p.2) &&
  b.all (fun p => (objLookup a p.1).isSome)

/-- Ramda `R.equals` lifted to possibly-absent objects: two absent values
are equal; an absent value never equals a present object (even an empty
one, since the key sets differ). -/
def ramdaEqualsOptObj : Option JObj → Option JObj → Bool
  | none, none => true
  | some a, some b => ramdaEqualsObj a b
  | _, _ => false

/- ----------------------------------------------------------------- -/
/- Constants.  The `constants` module is imported by the source but is
   not part of this repository snapshot, so the values are modelled from
   the spec (the spec names `javascript` and `@bit` as the system
   defaults; the environment kinds, sentinel and file names are opaque
   strings used only for identity). -/

/-- Modelled from the spec: the "no-plugin" sentinel string (`NO_PLUGIN_TYPE`
in the source's constants module, which is outside this snapshot). -/
def NO_PLUGIN_TYPE : String := "none"

/-- Modelled from the spec: the compiler environment kind (`COMPILER_ENV_TYPE`). -/
def COMPILER_ENV_TYPE : String := "compiler"

/-- Modelled from the spec: the tester environment kind (`TESTER_ENV_TYPE`). -/
def TESTER_ENV_TYPE : String := "tester"

/-- Modelled from the spec: the system-wide default language (`DEFAULT_LANGUAGE`). -/
def DEFAULT_LANGUAGE : String := "javascript"

/-- Modelled from the spec: the system-wide default bindings marker
(`DEFAULT_BINDINGS_PREFIX` in the source). -/
def DEFAULT_BINDINGS_PREF : String := "@bit"

/-- Modelled from the spec: the workspace descriptor file name (`BIT_JSON`). -/
def BIT_JSON : String := "bit.json"

/-- Modelled from the spec: the package descriptor file name (`PACKAGE_JSON`). -/
def PACKAGE_JSON : String := "package.json"

/- ----------------------------------------------------------------- -/
/- Environment declarations. -/

/-- `EnvExtensionObject` of the source: one structured environment entry.
An `Option` field set to `none` models a key that is absent from the JS
object (the legacy bare entry `{}` has all three keys absent). -/
structure EnvExtensionObject where
  rawConfig : Option JObj
  options : Option JObj
  files : Option (List String)
deriving DecidableEq, Repr

/-- The entry `{}` produced by normalizing a bare name string. -/
def emptyEnvEntry : EnvExtensionObject :=
  { rawConfig := none, options := none, files := none }

/-- `Envs` of the source: mapping from environment name to entry. -/
abbrev Envs := List (String × EnvExtensionObject)

/-- The polymorphic runtime value stored in `_compiler` / `_tester`:
either a bare name string (legacy) or an environment set. -/
inductive EnvVal where
  | str : String → EnvVal
  | obj : Envs → EnvVal
deriving DecidableEq, Repr

/-- `transformEnvToObject` of the source: the environment normalizer.
A string equal to the no-plugin sentinel becomes the empty set, any other
string becomes a one-entry set with the empty entry, and a set is
returned unchanged. -/
def transformEnvToObject : EnvVal → Envs
  | EnvVal.str env => if env = NO_PLUGIN_TYPE then [] else [(env, emptyEnvEntry)]
  | EnvVal.obj env => env

/-- `RA.isNilOrEmpty` on a possibly-absent object: true for nil
(absent) and for an empty object. -/
def isNilOrEmptyObj : Option JObj → Bool
  | none => true
  | some o => o.isEmpty

/-- `RA.isNilOrEmpty` on a possibly-absent file list. -/
def isNilOrEmptyFiles : Option (List String) → Bool
  | none => true
  | some l => l.isEmpty

/- ----------------------------------------------------------------- -/
/- Extensions. -/

/-- `RegularExtensionObject` of the source: a generic (non-env)
extension entry `{rawConfig, options}`. -/
structure RegularExtensionObject where
  rawConfig : Option JObj
  options : Option JObj
deriving DecidableEq, Repr

/-- `Extensions` of the source: mapping from extension name to entry. -/
abbrev Extensions := List (String × RegularExtensionObject)

/-- Ramda `R.equals` on two extension entries (key-set-sensitive, like
the JS deep equality). -/
def ramdaEqualsRegExt (x y : RegularExtensionObject) : Bool :=
  ramdaEqualsOptObj x.rawConfig y.rawConfig && ramdaEqualsOptObj x.options y.options

/-- Ramda `R.equals` on two extension sets: same names, deeply equal
entries, key order irrelevant. -/
def ramdaEqualsExts (a b : Extensions) : Bool :=
  (a.all fun p =>
    match objLookup b p.1 with
    | some y => ramdaEqualsRegExt p.2 y
    | none => false) &&
  (b.all fun p => (objLookup a p.1).isSome)

/-- Modelled from the spec: the system-wide default extension set
(`DEFAULT_EXTENSIONS` in the constants module, outside this snapshot);
represented by a fixed non-empty set, used only for deep-equality
comparison in the canonicalizer. -/
def DEFAULT_EXTENSIONS : Extensions :=
  [("ext-docs", { rawConfig := some [], options := some [("core", JLit.bool true)] })]

/- ----------------------------------------------------------------- -/
/- The config model. -/

/-- `AbstractBitConfigProps`: the constructor's props object; every
field is optional. -/
structure AbstractBitConfigProps where
  compiler : Option EnvVal
  tester : Option EnvVal
  dependencies : Option (List (String × String))
  devDependencies : Option (List (String × String))
  compilerDependencies : Option (List (String × String))
  testerDependencies : Option (List (String × String))
  lang : Option String
  bindingPref : Option String
  extensions : Option Extensions
deriving Repr

/-- `AbstractBitConfig`: the abstract config model.  `bindingPref`
models the source field named `bindingPrefix`.  A dependency field that
the constructor leaves unassigned (JS `undefined`) is `none`. -/
structure AbstractBitConfig where
  path : String
  _compiler : EnvVal
  _tester : EnvVal
  dependencies : Option (List (String × String))
  devDependencies : Option (List (String × String))
  compilerDependencies : Option (List (String × String))
  testerDependencies : Option (List (String × String))
  lang : String
  bindingPref : String
  extensions : Extensions
  writeToPackageJson : Bool
  writeToBitJson : Bool
deriving DecidableEq, Repr

/-- JS `a || d` for an optional string prop: the default is taken when
the prop is absent or falsy (the empty string). -/
def jsOrStr (a : Option String) (d : String) : String :=
  match a with
  | none => d
  | some s => if s = "" then d else s

/-- JS `props.compiler || {}`: absent or falsy (only a bare empty string
is falsy here; objects are always truthy) becomes the empty object. -/
def jsOrEmptyEnv (a : Option EnvVal) : EnvVal :=
  match a with
  | none => EnvVal.obj []
  | some (EnvVal.str s) => if s = "" then EnvVal.obj [] else EnvVal.str s
  | some (EnvVal.obj o) => EnvVal.obj o

/-- The source constructor (lines 82-88): assigns `_compiler`, `_tester`,
`lang`, `bindingPrefix` and `extensions` from the props and nothing else;
the dependency fields stay unassigned (`none`), the write flags keep
their class-level `false` initializers, and `path` is assigned later by
the concrete subclasses (modelled as the empty string here). -/
def AbstractBitConfig.make (props : AbstractBitConfigProps) : AbstractBitConfig :=
  { path := ""
    _compiler := jsOrEmptyEnv props.compiler
    _tester := jsOrEmptyEnv props.tester
    dependencies := none
    devDependencies := none
    compilerDependencies := none
    testerDependencies := none
    lang := jsOrStr props.lang DEFAULT_LANGUAGE
    bindingPref := jsOrStr props.bindingPref DEFAULT_BINDINGS_PREF
    extensions := props.extensions.getD DEFAULT_EXTENSIONS
    writeToPackageJson := false
    writeToBitJson := false }

/-- The `compiler` getter: normalizes the stored value and represents an
empty normalized set as absent (`R.isEmpty` check). -/
def AbstractBitConfig.compiler (c : AbstractBitConfig) : Option Envs :=
  let compilerObj := transformEnvToObject c._compiler
  if compilerObj.isEmpty then none else some compilerObj

/-- The `tester` getter, symmetric to the `compiler` getter. -/
def AbstractBitConfig.tester (c : AbstractBitConfig) : Option Envs :=
  let testerObj := transformEnvToObject c._tester
  if testerObj.isEmpty then none else some testerObj

/-- `R.isEmpty` applied to a getter result: `R.isEmpty(undefined)` is
false in Ramda; a present set is empty iff it has no keys. -/
def ramdaIsEmptyOpt : Option Envs → Bool
  | none => false
  | some l => l.isEmpty

/-- `hasCompiler` of the source: the getter result is truthy, the raw
stored value is not the sentinel string, and the getter result is not
empty. -/
def AbstractBitConfig.hasCompiler (c : AbstractBitConfig) : Bool :=
  c.compiler.isSome && !(c._compiler == EnvVal.str NO_PLUGIN_TYPE)
    && !(ramdaIsEmptyOpt c.compiler)

/-- `hasTester` of the source, symmetric to `hasCompiler`. -/
def AbstractBitConfig.hasTester (c : AbstractBitConfig) : Bool :=
  c.tester.isSome && !(c._tester == EnvVal.str NO_PLUGIN_TYPE)
    && !(ramdaIsEmptyOpt c.tester)

/-- `getEnvsByType` of the source, at its runtime semantics: the type
annotation restricts `type` statically, but at run time the function
compares `type` with the compiler kind and otherwise falls through to
the tester getter, whatever the value is. -/
def AbstractBitConfig.getEnvsByType (c : AbstractBitConfig) (type : String) : Option Envs :=
  if type = COMPILER_ENV_TYPE then c.compiler else c.tester

/-- `BitId`: the component identifier.  Modelled from the spec: the
`bit-id` module is outside this snapshot; an id is opaque and
convertible to a one-entry flat object mapping its key to a
version/spec string. -/
structure BitId where
  key : String
  version : String
deriving DecidableEq, Repr

/-- `bitId.toObject()`: the one-entry flat-object form of an id. -/
def BitId.toObject (b : BitId) : List (String × String) :=
  [(b.key, b.version)]

/-- Ramda `R.merge a b`: keys of `a` (in order, with `b`'s value when
the key also occurs in `b`) followed by the keys only in `b`. -/
def mergeObj (a b : List (String × String)) : List (String × String) :=
  (a.map fun p =>
    match objLookup b p.1 with
    | some v => (p.1, v)
    | none => p) ++
  b.filter (fun p => (objLookup a p.1).isNone)

/-- `R.merge(this.dependencies, obj)` where `this.dependencies` may
still be unassigned: merging into `undefined` yields the right operand. -/
def jsMergeDeps : Option (List (String × String)) → List (String × String) → List (String × String)
  | none, b => b
  | some a, b => mergeObj a b

/-- `R.mergeAll`: left fold of `R.merge` over a list of objects. -/
def mergeAllObjs (l : List (List (String × String))) : List (String × String) :=
  l.foldl mergeObj []

/-- `addDependency` of the source: merges one id's flat-object form into
`dependencies` and returns the model. -/
def AbstractBitConfig.addDependency (c : AbstractBitConfig) (bitId : BitId) : AbstractBitConfig :=
  { c with dependencies := some (jsMergeDeps c.dependencies bitId.toObject) }

/-- `addDependencies` of the source: merges the flat-object forms of a
list of ids (via `R.mergeAll`) into `dependencies`. -/
def AbstractBitConfig.addDependencies (c : AbstractBitConfig) (bitIds : List BitId) : AbstractBitConfig :=
  { c with dependencies :=
      (some (jsMergeDeps c.dependencies (mergeAllObjs (bitIds.map BitId.toObject)))) }

/- ----------------------------------------------------------------- -/
/- Environment loading. -/

/-- `EnvLoadArgsProps`: the property bag handed to the plugin factory by
`getEnvsProps` (source lines 294-315). -/
structure EnvLoadArgsProps where
  name : String
  consumerPath : String
  scopePath : String
  rawConfig : Option JObj
  files : Option (List String)
  bitJsonPath : String
  options : Option JObj
  envType : String
  context : Option JObj
deriving DecidableEq, Repr

/-- `getEnvsProps` of the source: assembles the property bag from the
selected entry, the caller paths, the config's own path and the kind. -/
def getEnvsProps (consumerPath scopePath : String) (envName : String)
    (envObject : EnvExtensionObject) (bitJsonPath : String) (envType : String)
    (context : Option JObj) : EnvLoadArgsProps :=
  { name := envName
    consumerPath := consumerPath
    scopePath := scopePath
    rawConfig := envObject.rawConfig
    files := envObject.files
    bitJsonPath := bitJsonPath
    options := envObject.options
    envType := envType
    context := context }

/-- `loadEnv` of the source: resolves the normalized set for the kind,
returns absent when there is none, otherwise selects the first key and
invokes the plugin factory on the assembled property bag.  The factory's
asynchronous result is modelled as a pure `Option`-valued function; the
empty-set branch is unreachable because the getters never produce an
empty set. -/
def AbstractBitConfig.loadEnv {α : Type} (c : AbstractBitConfig) (envType : String)
    (consumerPath scopePath : String) (loadFunc : EnvLoadArgsProps → Option α)
    (context : Option JObj) : Option α :=
  match c.getEnvsByType envType with
  | none => none
  | some envs =>
    match envs with
    | [] => none
    | (envName, envObject) :: _ =>
      loadFunc (getEnvsProps consumerPath scopePath envName envObject c.path envType context)

/-- `loadCompiler` of the source: early-returns absent when
`hasCompiler()` is false, otherwise defers to `loadEnv` with the
compiler kind. -/
def AbstractBitConfig.loadCompiler {α : Type} (c : AbstractBitConfig)
    (consumerPath scopePath : String) (loadFunc : EnvLoadArgsProps → Option α)
    (context : Option JObj) : Option α :=
  if !c.hasCompiler then none
  else c.loadEnv COMPILER_ENV_TYPE consumerPath scopePath loadFunc context

/-- `loadTester` of the source, symmetric to `loadCompiler`. -/
def AbstractBitConfig.loadTester {α : Type} (c : AbstractBitConfig)
    (consumerPath scopePath : String) (loadFunc : EnvLoadArgsProps → Option α)
    (context : Option JObj) : Option α :=
  if !c.hasTester then none
  else c.loadEnv TESTER_ENV_TYPE consumerPath scopePath loadFunc context

/-- `getBackwardCompatibleEnv` of the source: absent stays absent, a
set with more or fewer than one key is returned unchanged, and a
one-key set whose entry has nil-or-empty `rawConfig`, `options` and
`files` collapses to the bare key string. -/
def AbstractBitConfig.getBackwardCompatibleEnv (c : AbstractBitConfig) (type : String) :
    Option EnvVal :=
  match c.getEnvsByType type with
  | none => none
  | some envObj =>
    match envObj with
    | [(envId, entry)] =>
      if isNilOrEmptyObj entry.rawConfig && isNilOrEmptyObj entry.options
          && isNilOrEmptyFiles entry.files
      then some (EnvVal.str envId)
      else some (EnvVal.obj envObj)
    | _ => some (EnvVal.obj envObj)

/- ----------------------------------------------------------------- -/
/- Canonicalization. -/

/-- The value stored under `env.compiler` / `env.tester` in the plain
object: the result of `getBackwardCompatibleEnv` as a JS value
(`undefined`, a bare string, or the set itself). -/
inductive EnvFieldVal where
  | undef : EnvFieldVal
  | str : String → EnvFieldVal
  | envs : Envs → EnvFieldVal
deriving DecidableEq, Repr

/-- Converts a `getBackwardCompatibleEnv` result to the JS value placed
in the candidate plain object. -/
def backCompToVal : Option EnvVal → EnvFieldVal
  | none => EnvFieldVal.undef
  | some (EnvVal.str s) => EnvFieldVal.str s
  | some (EnvVal.obj es) => EnvFieldVal.envs es

/-- The JS values that occur at the top level of the candidate object
built by `toPlainObject`: a string (`lang`, `bindingPrefix`), the
`env` wrapper object, the dependencies map, the extensions map, or
`undefined` (an unassigned dependencies field). -/
inductive PVal where
  | undef : PVal
  | str : String → PVal
  | envWrap : EnvFieldVal → EnvFieldVal → PVal
  | depsObj : List (String × String) → PVal
  | extsObj : Extensions → PVal
deriving DecidableEq, Repr

/-- The plain (canonical) config object. -/
abbrev PlainObj := List (String × PVal)

/-- JS truthiness of the candidate values: `undefined` and the empty
string are falsy; every object (`env` wrapper, dependencies map,
extensions map — even when structurally empty) is truthy. -/
def jsFalsy : PVal → Bool
  | PVal.undef => true
  | PVal.str s => s = ""
  | PVal.envWrap _ _ => false
  | PVal.depsObj _ => false
  | PVal.extsObj _ => false

/-- `R.equals(val, DEFAULT_EXTENSIONS)` as evaluated by the filter
predicate: only an extensions map can be deeply equal to the default
extension set. -/
def pvalEqualsDefaultExts : PVal → Bool
  | PVal.extsObj e => ramdaEqualsExts e DEFAULT_EXTENSIONS
  | _ => false

/-- `isPropDefaultOrNull` of the source (the keep-predicate inside
`toPlainObject`): drop falsy values; keep `lang` / `bindingPrefix` only
when different from the system default; keep `extensions` only when not
deeply equal to the default set; keep every other truthy value. -/
def isPropDefaultOrNull (val : PVal) (key : String) : Bool :=
  if jsFalsy val then false
  else if key = "lang" then !(val == PVal.str DEFAULT_LANGUAGE)
  else if key = "bindingPrefix" then !(val == PVal.str DEFAULT_BINDINGS_PREF)
  else if key = "extensions" then !(pvalEqualsDefaultExts val)
  else true

/-- Modelled from the spec: `filterObject` from the `utils` module
(outside this snapshot) keeps exactly the keys on which the predicate
returns true, preserving order. -/
def filterObject (obj : PlainObj) (fn : PVal → String → Bool) : PlainObj :=
  obj.filter fun p => fn p.2 p.1

/-- The JS value stored under the `dependencies` key: the raw map, or
`undefined` when the field was never assigned. -/
def depsToVal : Option (List (String × String)) → PVal
  | none => PVal.undef
  | some d => PVal.depsObj d

/-- `toPlainObject` of the source: builds the five-key candidate object
and filters it through `isPropDefaultOrNull`. -/
def AbstractBitConfig.toPlainObject (c : AbstractBitConfig) : PlainObj :=
  filterObject
    [("lang", PVal.str c.lang),
     ("bindingPrefix", PVal.str c.bindingPref),
     ("env", PVal.envWrap
        (backCompToVal (c.getBackwardCompatibleEnv COMPILER_ENV_TYPE))
        (backCompToVal (c.getBackwardCompatibleEnv TESTER_ENV_TYPE))),
     ("dependencies", depsToVal c.dependencies),
     ("extensions", PVal.extsObj c.extensions)]
    isPropDefaultOrNull

/-- `toJson` of the source: both forms derive from the same
`toPlainObject` result; `readable` only selects the indentation. -/
def AbstractBitConfig.toJson (c : AbstractBitConfig) (readable : Bool) : PlainObj × Bool :=
  (c.toPlainObject, readable)

/- ----------------------------------------------------------------- -/
/- Filesystem model and the dual-destination writer.  The filesystem
   collaborator (`fs-extra`), the staged `JSONFile` sources and the
   logging sink are external to this file of the repository; they are
   modelled from the spec's collaborator interfaces: a path-keyed store
   of parsed JSON documents, staged (path, content) pairs written with
   override semantics, and an append-only log. -/

/-- Content of a JSON document on disk: a package descriptor (its
non-`bit` fields plus an optional `bit` field), or a workspace
descriptor holding a plain config object. -/
inductive FileContent where
  | packageDoc : JObj → Option PlainObj → FileContent
  | configDoc : PlainObj → FileContent
deriving DecidableEq, Repr

/-- `packageJsonFile.bit = plainObject`: sets the `bit` field of a read
package descriptor.  (A workspace-descriptor-shaped document never sits
at the package descriptor path in this development; JS property
assignment would mutate it the same way, which is inexpressible on this
constructor and left as the identity.) -/
def FileContent.setBit : FileContent → PlainObj → FileContent
  | FileContent.packageDoc rest _, p => FileContent.packageDoc rest (some p)
  | FileContent.configDoc c, _ => FileContent.configDoc c

/-- The filesystem and logging collaborators: existing files (path to
parsed content) and the messages sent to the logging sink. -/
structure FSState where
  files : List (String × FileContent)
  log : List String
deriving DecidableEq, Repr

/-- `path.join(a, b)` for a directory and a file name, modelled as
slash concatenation. -/
def joinPath (a b : String) : String := a ++ "/" ++ b

/-- `composeBitJsonPath` of the source. -/
def composeBitJsonPath (bitPath : String) : String := joinPath bitPath BIT_JSON

/-- `composePackageJsonPath` of the source. -/
def composePackageJsonPath (bitPath : String) : String := joinPath bitPath PACKAGE_JSON

/-- `fs.readJson`: the parsed content of an existing file, or a
rejection with the distinguished not-found code. -/
def readJson (fs : FSState) (p : String) : Except String FileContent :=
  match objLookup fs.files p with
  | some content => Except.ok content
  | none => Except.error "ENOENT"

/-- Writes one staged document with override (create-or-replace)
semantics. -/
def writeFile (files : List (String × FileContent)) (p : String) (content : FileContent) :
    List (String × FileContent) :=
  if (objLookup files p).isSome then
    files.map fun q => if q.1 = p then (p, content) else q
  else files ++ [(p, content)]

/-- `prepareToWrite` of the source: computes the plain object once,
then stages the package descriptor first (reading the existing file and
setting its `bit` field; a read failure aborts the whole preparation)
and the workspace descriptor second. -/
def AbstractBitConfig.prepareToWrite (c : AbstractBitConfig) (fs : FSState) (bitDir : String) :
    Except String (List (String × FileContent)) :=
  let plainObject := c.toPlainObject
  match (if c.writeToPackageJson then
          match readJson fs (composePackageJsonPath bitDir) with
          | Except.error e => Except.error e
          | Except.ok pkgFile =>
            Except.ok [(composePackageJsonPath bitDir, pkgFile.setBit plainObject)]
         else Except.ok []) with
  | Except.error e => Except.error e
  | Except.ok pkgStaged =>
    Except.ok (pkgStaged ++
      (if c.writeToBitJson then [(composeBitJsonPath bitDir, FileContent.configDoc plainObject)]
       else []))

/-- `write` of the source: runs `prepareToWrite` and then performs every
staged write, returning the written paths; a preparation failure
propagates before any file is touched, so the state is returned
unchanged in that case. -/
def AbstractBitConfig.write (c : AbstractBitConfig) (fs : FSState) (bitDir : String) :
    Except String (List String) × FSState :=
  match c.prepareToWrite fs bitDir with
  | Except.error e => (Except.error e, fs)
  | Except.ok jsonFiles =>
    (Except.ok (jsonFiles.map fun p => p.1),
     { fs with files := jsonFiles.foldl (fun acc pf => writeFile acc pf.1 pf.2) fs.files })

/-- `removeIfExist` as written in the source: the guard
`if (fs.exists(dirToRemove))` tests the promise returned by `fs.exists`
without awaiting it, and a promise object is always truthy, so the
then-branch is taken unconditionally: the deletion is always logged, the
file is removed when present (`fs.remove` is a no-op on a missing path),
and the function returns the resolution value of `fs.remove`, which is
`undefined` (`none`), never `true`; the trailing `return false` is
unreachable. -/
def AbstractBitConfig.removeIfExist (fs : FSState) (bitPath : String) :
    Option Bool × FSState :=
  let dirToRemove := composeBitJsonPath bitPath
  let promiseIsTruthy := true
  if promiseIsTruthy then
    (none,
     { files := fs.files.filter (fun p => p.1 ≠ dirToRemove),
       log := fs.log ++ ["abstract-bit-config, deleting " ++ dirToRemove] })
  else (some false, fs)

/-- Modelled from the spec: the existence-gated delete that
`removeIfExist` is specified to be — return false and do nothing (no
log) when the workspace descriptor file does not exist, otherwise log
and delete it and return true. -/
def removeIfExistSpec (fs : FSState) (bitPath : String) : Bool × FSState :=
  let dirToRemove := composeBitJsonPath bitPath
  if (objLookup fs.files dirToRemove).isSome then
    (true,
     { files := fs.files.filter (fun p => p.1 ≠ dirToRemove),
       log := fs.log ++ ["abstract-bit-config, deleting " ++ dirToRemove] })
  else (false, fs)

/- ----------------------------------------------------------------- -/
/- Sample values used by concrete witnesses and counterexamples. -/

/-- A baseline model: every field at its system default, no
dependencies, both write flags off. -/
def baseCfg : AbstractBitConfig :=
  { path := "proj"
    _compiler := EnvVal.obj []
    _tester := EnvVal.obj []
    dependencies := none
    devDependencies := none
    compilerDependencies := none
    testerDependencies := none
    lang := DEFAULT_LANGUAGE
    bindingPref := DEFAULT_BINDINGS_PREF
    extensions := DEFAULT_EXTENSIONS
    writeToPackageJson := false
    writeToBitJson := false }

/-- A model with a sentinel string stored in both env slots. -/
def sentinelCfg : AbstractBitConfig :=
  { baseCfg with _compiler := EnvVal.str NO_PLUGIN_TYPE, _tester := EnvVal.str NO_PLUGIN_TYPE }

/-- A model declaring only a tester, as a one-entry normalized set. -/
def testerOnlyCfg : AbstractBitConfig :=
  { baseCfg with _tester := EnvVal.obj [("my-tester", emptyEnvEntry)] }

/-- The identity plugin factory: hands back the property bag it
received, so the bag itself is the observable result of `loadEnv`. -/
def idFactory : EnvLoadArgsProps → Option EnvLoadArgsProps := some

/-- An environment entry carrying non-empty options. -/
def optsEntry : EnvExtensionObject :=
  { rawConfig := none, options := some [("write", JLit.bool true)], files := none }

/-- A model whose single compiler entry carries non-empty options. -/
def cfgOptsA : AbstractBitConfig :=
  { baseCfg with _compiler := EnvVal.obj [("env1", optsEntry)] }

/-- The property bag that `loadEnv` hands the factory for `cfgOptsA`. -/
def optsBag : EnvLoadArgsProps :=
  { name := "env1"
    consumerPath := "cp"
    scopePath := "sp"
    rawConfig := none
    files := none
    bitJsonPath := "proj"
    options := some [("write", JLit.bool true)]
    envType := COMPILER_ENV_TYPE
    context := none }

/-- A model whose single compiler entry is the bare empty entry; it
agrees with `cfgOptsA` on everything except that entry's options. -/
def cfgOptsB : AbstractBitConfig :=
  { baseCfg with _compiler := EnvVal.obj [("env1", emptyEnvEntry)] }

/-- The eight components that claim C4 says the property bag consists of
exactly (its `configPath` is the source's `bitJsonPath` field). -/
def claimedBag (p : EnvLoadArgsProps) :
    String × String × String × Option JObj × Option (List String) × String × String × Option JObj :=
  (p.name, p.consumerPath, p.scopePath, p.rawConfig, p.files, p.bitJsonPath, p.envType, p.context)

/- ----------------------------------------------------------------- -/
/- Theorems. -/

/-- C1 (counterexample): a model whose `lang` and `bindingPrefix` equal the
system defaults and whose only non-default datum is a dependencies mapping
does NOT canonicalize to exactly `{dependencies}`: the `env` key, a truthy
object even with both of its entries undefined, survives the filter. -/
theorem toPlainObject_not_exactly_dependencies :
    ({ baseCfg with dependencies := some [("foo@1.0.0", "1.0.0")] } :
        AbstractBitConfig).toPlainObject
      = [("env", PVal.envWrap EnvFieldVal.undef EnvFieldVal.undef),
         ("dependencies", PVal.depsObj [("foo@1.0.0", "1.0.0")])]
    ∧ ({ baseCfg with dependencies := some [("foo@1.0.0", "1.0.0")] } :
        AbstractBitConfig).toPlainObject
      ≠ [("dependencies", PVal.depsObj [("foo@1.0.0", "1.0.0")])] := by
  constructor <;> decide

/-- C1 (amended): for a model built from a canonical plain object whose
`lang`, `bindingPrefix` and `extensions` equal the system defaults, whose
compiler and tester are absent and whose only other datum is a dependencies
mapping, `toPlainObject` removes every falsy or default-valued key and keeps
the rest — yielding the dependencies mapping TOGETHER WITH the always-truthy
`env` wrapper object (whose two entries are undefined). -/
theorem toPlainObject_env_and_dependencies (c : AbstractBitConfig)
    (d : List (String × String))
    (hl : c.lang = DEFAULT_LANGUAGE) (hb : c.bindingPref = DEFAULT_BINDINGS_PREF)
    (he : c.extensions = DEFAULT_EXTENSIONS)
    (hc : c._compiler = EnvVal.obj []) (ht : c._tester = EnvVal.obj [])
    (hd : c.dependencies = some d) :
    c.toPlainObject
      = [("env", PVal.envWrap EnvFieldVal.undef EnvFieldVal.undef),
         ("dependencies", PVal.depsObj d)] := by
  simp [AbstractBitConfig.toPlainObject, filterObject, isPropDefaultOrNull, jsFalsy,
    AbstractBitConfig.getBackwardCompatibleEnv, AbstractBitConfig.getEnvsByType,
    AbstractBitConfig.compiler, AbstractBitConfig.tester, transformEnvToObject,
    hl, hb, he, hc, ht, hd, backCompToVal, depsToVal, pvalEqualsDefaultExts,
    ramdaEqualsExts, ramdaEqualsRegExt, ramdaEqualsOptObj, ramdaEqualsObj, objLookup,
    DEFAULT_EXTENSIONS, COMPILER_ENV_TYPE, TESTER_ENV_TYPE, DEFAULT_LANGUAGE,
    DEFAULT_BINDINGS_PREF]

/-- C1 (witness): the amended statement applied to the baseline model with
one dependency. -/
theorem toPlainObject_env_and_dependencies_witness :
    ({ baseCfg with dependencies := some [("bar@0.0.1", "0.0.1")] } :
        AbstractBitConfig).toPlainObject
      = [("env", PVal.envWrap EnvFieldVal.undef EnvFieldVal.undef),
         ("dependencies", PVal.depsObj [("bar@0.0.1", "0.0.1")])] :=
  toPlainObject_env_and_dependencies _ [("bar@0.0.1", "0.0.1")] rfl rfl rfl rfl rfl rfl

/-- C2: for a legacy bare-name string that is not the no-plugin sentinel,
serializing the normalization of that string returns the string itself:
the getter normalizes it to a one-entry set with the empty entry, and
`getBackwardCompatibleEnv` collapses that set back to the bare key. -/
theorem backwardCompatible_of_normalize (c : AbstractBitConfig) (s : String)
    (hs : s ≠ NO_PLUGIN_TYPE) :
    (c._compiler = EnvVal.str s →
      c.getBackwardCompatibleEnv COMPILER_ENV_TYPE = some (EnvVal.str s))
    ∧ (c._tester = EnvVal.str s →
      c.getBackwardCompatibleEnv TESTER_ENV_TYPE = some (EnvVal.str s)) := by
  constructor <;> intro h <;>
    simp [AbstractBitConfig.getBackwardCompatibleEnv, AbstractBitConfig.getEnvsByType,
      AbstractBitConfig.compiler, AbstractBitConfig.tester, transformEnvToObject, h, hs,
      emptyEnvEntry, isNilOrEmptyObj, isNilOrEmptyFiles, COMPILER_ENV_TYPE, TESTER_ENV_TYPE]

/-- C2 (witness): the round trip on the bare name "my-env", stored as a
legacy string in both slots. -/
theorem backwardCompatible_of_normalize_witness :
    ({ baseCfg with _compiler := EnvVal.str "my-env", _tester := EnvVal.str "my-env" } :
        AbstractBitConfig).getBackwardCompatibleEnv COMPILER_ENV_TYPE
      = some (EnvVal.str "my-env")
    ∧ ({ baseCfg with _compiler := EnvVal.str "my-env", _tester := EnvVal.str "my-env" } :
        AbstractBitConfig).getBackwardCompatibleEnv TESTER_ENV_TYPE
      = some (EnvVal.str "my-env") :=
  ⟨(backwardCompatible_of_normalize _ "my-env" (by decide)).1 rfl,
   (backwardCompatible_of_normalize _ "my-env" (by decide)).2 rfl⟩

/-- C3 (counterexample): called with a value that is neither of the two
enumerated kinds, `getEnvsByType` does not fail: it silently returns the
tester set — a recoverable, successful result. -/
theorem getEnvsByType_invalid_kind_recoverable :
    testerOnlyCfg.getEnvsByType "not-an-env-kind" = some [("my-tester", emptyEnvEntry)]
    ∧ (testerOnlyCfg.getEnvsByType "not-an-env-kind").isSome = true := by
  constructor <;> decide

/-- C3 (amended): `getEnvsByType` returns the compiler set exactly for the
COMPILER kind and the tester set for every other value: an invalid kind is
excluded only by the static type annotation, not rejected at run time. -/
theorem getEnvsByType_total (c : AbstractBitConfig) (type : String)
    (h : type ≠ COMPILER_ENV_TYPE) :
    c.getEnvsByType COMPILER_ENV_TYPE = c.compiler
    ∧ c.getEnvsByType type = c.tester := by
  unfold AbstractBitConfig.getEnvsByType
  exact ⟨if_pos rfl, if_neg h⟩

/-- C3 (witness): the amended statement applied to the tester-only model and
an arbitrary invalid kind string. -/
theorem getEnvsByType_total_witness :
    testerOnlyCfg.getEnvsByType COMPILER_ENV_TYPE = testerOnlyCfg.compiler
    ∧ testerOnlyCfg.getEnvsByType "garbage" = testerOnlyCfg.tester :=
  getEnvsByType_total testerOnlyCfg "garbage" (by decide)

/-- C4 (counterexample): two models identical in every component the claim's
"exact" property bag lists (name, consumerPath, scopePath, rawConfig, files,
configPath, envType, context) nevertheless hand different bags to the plugin
factory, because the bag also carries the entry's `options`. -/
theorem loadEnv_bag_not_exactly_claimed :
    cfgOptsA.loadEnv COMPILER_ENV_TYPE "cp" "sp" idFactory none
      ≠ cfgOptsB.loadEnv COMPILER_ENV_TYPE "cp" "sp" idFactory none
    ∧ (cfgOptsA.loadEnv COMPILER_ENV_TYPE "cp" "sp" idFactory none).map claimedBag
      = (cfgOptsB.loadEnv COMPILER_ENV_TYPE "cp" "sp" idFactory none).map claimedBag :=
  ⟨by decide, rfl⟩

/-- C4 (amended): when `loadEnv` resolves a non-absent environment set, the
property bag passed to the plugin factory is exactly `{name, consumerPath,
scopePath, rawConfig, files, bitJsonPath := this.path, options, envType,
context}`, with the name and the entry fields taken from the first key of
the set. -/
theorem loadEnv_property_bag {α : Type} (c : AbstractBitConfig) (t cp sp : String)
    (f : EnvLoadArgsProps → Option α) (ctx : Option JObj)
    (envName : String) (envObject : EnvExtensionObject) (rest : Envs)
    (h : c.getEnvsByType t = some ((envName, envObject) :: rest)) :
    c.loadEnv t cp sp f ctx
      = f { name := envName, consumerPath := cp, scopePath := sp,
            rawConfig := envObject.rawConfig, files := envObject.files,
            bitJsonPath := c.path, options := envObject.options,
            envType := t, context := ctx } := by
  unfold AbstractBitConfig.loadEnv
  rw [h]
  rfl

/-- C4 (witness): the amended statement applied to the model with one
options-bearing compiler entry and the identity factory. -/
theorem loadEnv_property_bag_witness :
    cfgOptsA.loadEnv COMPILER_ENV_TYPE "cp" "sp" idFactory none = idFactory optsBag :=
  loadEnv_property_bag cfgOptsA COMPILER_ENV_TYPE "cp" "sp" idFactory none "env1"
    optsEntry [] (by decide)

/-- C5: with `writeToPackageJson` set and no package descriptor at the target
directory, `write()` fails with the not-found error before any file is
written and leaves the filesystem untouched — in particular the workspace
descriptor file is not created even when `writeToBitJson` is also set. -/
theorem write_missing_packageJson_fatal (c : AbstractBitConfig) (fs : FSState)
    (bitDir : String) (hw : c.writeToPackageJson = true)
    (habs : objLookup fs.files (composePackageJsonPath bitDir) = none) :
    c.write fs bitDir = (Except.error "ENOENT", fs) := by
  simp [AbstractBitConfig.write, AbstractBitConfig.prepareToWrite, readJson, hw, habs]

/-- C5 (witness): the statement applied to a dual-destination model over an
empty filesystem; nothing is created. -/
theorem write_missing_packageJson_fatal_witness :
    ({ baseCfg with writeToPackageJson := true, writeToBitJson := true } :
        AbstractBitConfig).write { files := [], log := [] } "proj"
      = (Except.error "ENOENT", { files := [], log := [] }) :=
  write_missing_packageJson_fatal _ _ _ rfl rfl

/-- C6: normalizing the no-plugin sentinel yields the empty environment set,
and a model whose stored compiler (tester) value is that sentinel answers
false to `hasCompiler()` (`hasTester()`). -/
theorem sentinel_empty_and_no_env (c : AbstractBitConfig) :
    transformEnvToObject (EnvVal.str NO_PLUGIN_TYPE) = []
    ∧ (c._compiler = EnvVal.str NO_PLUGIN_TYPE → c.hasCompiler = false)
    ∧ (c._tester = EnvVal.str NO_PLUGIN_TYPE → c.hasTester = false) := by
  refine ⟨by decide, fun h => ?_, fun h => ?_⟩ <;>
    simp [AbstractBitConfig.hasCompiler, AbstractBitConfig.hasTester,
      AbstractBitConfig.compiler, AbstractBitConfig.tester, h, transformEnvToObject]

/-- C6 (witness): the statement applied to the sentinel-holding model. -/
theorem sentinel_empty_and_no_env_witness :
    transformEnvToObject (EnvVal.str NO_PLUGIN_TYPE) = []
    ∧ sentinelCfg.hasCompiler = false ∧ sentinelCfg.hasTester = false :=
  ⟨(sentinel_empty_and_no_env sentinelCfg).1,
   (sentinel_empty_and_no_env sentinelCfg).2.1 rfl,
   (sentinel_empty_and_no_env sentinelCfg).2.2 rfl⟩

/-- C7: on a model whose `hasCompiler()` is false, `loadCompiler` returns
absent for every plugin factory — the result does not depend on the factory,
which is therefore never invoked; symmetrically for `loadTester`. -/
theorem load_shortcut_no_factory {α : Type} (c : AbstractBitConfig)
    (cp sp : String) (f : EnvLoadArgsProps → Option α) (ctx : Option JObj) :
    (c.hasCompiler = false → c.loadCompiler cp sp f ctx = none)
    ∧ (c.hasTester = false → c.loadTester cp sp f ctx = none) := by
  constructor <;> intro h <;>
    simp [AbstractBitConfig.loadCompiler, AbstractBitConfig.loadTester, h]

/-- C7 (witness): the statement applied to the sentinel-holding model and a
factory that would answer if it were ever called. -/
theorem load_shortcut_no_factory_witness :
    sentinelCfg.hasCompiler = false
    ∧ sentinelCfg.loadCompiler "cp" "sp" (fun _ => some (0 : Nat)) none = none
    ∧ sentinelCfg.hasTester = false
    ∧ sentinelCfg.loadTester "cp" "sp" (fun _ => some (0 : Nat)) none = none :=
  ⟨by decide,
   (load_shortcut_no_factory sentinelCfg "cp" "sp" (fun _ => some (0 : Nat)) none).1 (by decide),
   by decide,
   (load_shortcut_no_factory sentinelCfg "cp" "sp" (fun _ => some (0 : Nat)) none).2 (by decide)⟩

/-- C8: the compiler and tester getters never return an empty set — a stored
value whose normalization is empty is represented as absent, and every
present result is a non-empty environment set. -/
theorem getters_never_empty (c : AbstractBitConfig) :
    (transformEnvToObject c._compiler = [] → c.compiler = none)
    ∧ (transformEnvToObject c._tester = [] → c.tester = none)
    ∧ (∀ s, c.compiler = some s → s ≠ [])
    ∧ (∀ s, c.tester = some s → s ≠ []) := by
  refine ⟨fun h => by simp [AbstractBitConfig.compiler, h], fun h => by
    simp [AbstractBitConfig.tester, h], fun s hs => ?_, fun s hs => ?_⟩
  · unfold AbstractBitConfig.compiler at hs
    cases hl : transformEnvToObject c._compiler with
    | nil => rw [hl] at hs; simp at hs
    | cons p rest => rw [hl] at hs; simp at hs; simp [← hs]
  · unfold AbstractBitConfig.tester at hs
    cases hl : transformEnvToObject c._tester with
    | nil => rw [hl] at hs; simp at hs
    | cons p rest => rw [hl] at hs; simp at hs; simp [← hs]

/-- C8 (witness): the statement applied to the sentinel-holding model, whose
normalized sets are empty: both getters answer absent. -/
theorem getters_never_empty_witness :
    sentinelCfg.compiler = none ∧ sentinelCfg.tester = none :=
  ⟨(getters_never_empty sentinelCfg).1 (by decide),
   (getters_never_empty sentinelCfg).2.1 (by decide)⟩

/-- C9: evaluation at the failing input — a directory holding no workspace
descriptor file.  The code's un-awaited `fs.exists` promise is always truthy,
so it logs a deletion that never happened and returns the resolution value of
`fs.remove` (undefined), not `false`; the spec-modelled existence-gated
delete returns `false` and logs nothing.  With the file present, the code
still returns undefined rather than `true`. -/
theorem removeIfExist_missing_await_divergence :
    AbstractBitConfig.removeIfExist { files := [], log := [] } "proj"
      = (none, { files := [],
                 log := ["abstract-bit-config, deleting proj/bit.json"] })
    ∧ removeIfExistSpec { files := [], log := [] } "proj"
      = (false, { files := [], log := [] })
    ∧ AbstractBitConfig.removeIfExist { files := [], log := [] } "proj"
      ≠ ((some false, { files := [], log := [] }) : Option Bool × FSState)
    ∧ (AbstractBitConfig.removeIfExist
        { files := [("proj/bit.json", FileContent.configDoc [])], log := [] } "proj").1
      ≠ some true := by
  refine ⟨by decide, by decide, by decide, by decide⟩

/-- C10: generic construction ignores every dependency field supplied in the
props — all four dependency fields are left unset — and a dependencies
mapping appears only once `addDependency` / `addDependencies` installs one. -/
theorem constructor_ignores_dependencies (props : AbstractBitConfigProps)
    (b : BitId) (bs : List BitId) :
    (AbstractBitConfig.make props).dependencies = none
    ∧ (AbstractBitConfig.make props).devDependencies = none
    ∧ (AbstractBitConfig.make props).compilerDependencies = none
    ∧ (AbstractBitConfig.make props).testerDependencies = none
    ∧ ((AbstractBitConfig.make props).addDependency b).dependencies = some b.toObject
    ∧ ((AbstractBitConfig.make props).addDependencies bs).dependencies
      = some (mergeAllObjs (bs.map BitId.toObject)) :=
  ⟨rfl, rfl, rfl, rfl, rfl, rfl⟩
